import Mathlib

/-!
# Network Anomaly Detection System — verification of the scoring-and-alerting core

Shallow embedding of the scoring-and-alerting pipeline of the repository:

* `preprocess_data` embeds `AnomalyDetector.preprocess_data`
  (anomaly_detection/scripts/predicts.py, lines 98–116): the fixed-schema
  feature vectorizer.
* `detectAnomalyWith` / `detect_anomaly` embed the severity-band logic of
  `AnomalyDetector.detect_anomaly` (predicts.py, lines 152–172); the model's
  `decision_function` is an external capability, so the score is a parameter.
* `AgentState`, `isRateLimited`, `send_alert`, `cleanupHistory`,
  `generate_alert_message` embed `AlertAgent` (anomaly_detection/scripts/
  alert_agent.py).  Python dicts are embedded as insertion-ordered
  association lists (`lookupA` / `setA`), which matches CPython's
  key-ordering semantics: an update keeps the key's position, a fresh key
  goes to the end, and `defaultdict` reads materialize the entry.

Times and scores are rationals; Python floats at this abstraction level
behave as exact arithmetic on the values involved.
-/

namespace NetworkAnomaly

/-! ## Python values and float coercion (for the vectorizer) -/

/-- A Python value as it can appear in an input record handed to
`preprocess_data`.  A string carries the rational its `float()` parse
yields, or `none` when `float()` raises `ValueError`; `pyNone` and
`pyObj` (any non-coercible object) make `float()` raise `TypeError`. -/
inductive PyVal where
  | pyInt (n : ℤ)
  | pyFloat (q : ℚ)
  | pyStr (numeric : Option ℚ)
  | pyNone
  | pyObj
deriving DecidableEq

/-- Python `float(value)`: `some q` when the coercion succeeds with value
`q`, `none` when it raises `ValueError` or `TypeError` (the two exception
types caught at predicts.py line 106). -/
def pyFloatCoerce : PyVal → Option ℚ
  | .pyInt n => some (n : ℚ)
  | .pyFloat q => some q
  | .pyStr numeric => numeric
  | .pyNone => none
  | .pyObj => none

/-- A non-fatal warning printed by `preprocess_data`: a failed float
coercion for a schema key (line 107) or an ignored unknown key (line 110). -/
inductive FVWarning where
  | coercion (key : String)
  | unknownKey (key : String)
deriving DecidableEq

/-- The `for key, value in data.items()` loop of `preprocess_data`
(predicts.py lines 102–110), threading the `processed_data` mapping.
`m` holds the current value for each schema feature (initialized to `0.0`
for every schema key by the comprehension at line 99; membership of a key
in `processed_data` is membership in the schema, since the loop never adds
keys).  Returns the final mapping and the warnings in emission order. -/
def processItems (schema : List String) :
    List (String × PyVal) → (String → ℚ) → ((String → ℚ) × List FVWarning)
  | [], m => (m, [])
  | (k, v) :: rest, m =>
    if k ∈ schema then
      match pyFloatCoerce v with
      | some q =>
        processItems schema rest (fun x => if x = k then q else m x)
      | none =>
        let r := processItems schema rest (fun x => if x = k then 0 else m x)
        (r.1, .coercion k :: r.2)
    else
      let r := processItems schema rest m
      (r.1, .unknownKey k :: r.2)

/-- `AnomalyDetector.preprocess_data` (predicts.py lines 98–116) up to the
single-row vector it hands to the (external) scaler: every schema slot
starts at `0.0`, record items update slots whose key is in the schema, and
`df[self.feature_names]` reads the slots back in schema order. -/
def preprocess_data (schema : List String) (data : List (String × PyVal)) :
    List ℚ × List FVWarning :=
  let r := processItems schema data (fun _ => 0)
  (schema.map r.1, r.2)

/-! ## Severity bands (`AnomalyDetector.detect_anomaly`) -/

/-- The fields of the result dictionary built by `detect_anomaly`
(predicts.py lines 166–172) that depend on the score. -/
structure DetectResult where
  is_anomaly : Bool
  anomaly_score : ℚ
  severity : String
deriving DecidableEq

/-- `SEVERE_THRESHOLD` (predicts.py line 153). -/
def SEVERE_THRESHOLD : ℚ := -0.15

/-- `MILD_THRESHOLD` (predicts.py line 154). -/
def MILD_THRESHOLD : ℚ := -0.05

/-- Lines 157–172 of predicts.py, parameterized by the two thresholds:
`is_anomaly = score < mild`; `score < severe` gives `high`, else
`score < mild` gives `medium`, else `low`. -/
def detectAnomalyWith (severe mild score : ℚ) : DetectResult :=
  { is_anomaly := decide (score < mild)
    anomaly_score := score
    severity :=
      if score < severe then "high"
      else if score < mild then "medium"
      else "low" }

/-- `detect_anomaly` at the hardcoded thresholds of predicts.py. -/
def detect_anomaly (score : ℚ) : DetectResult :=
  detectAnomalyWith SEVERE_THRESHOLD MILD_THRESHOLD score

/-! ## Insertion-ordered association lists (Python `dict`) -/

/-- `d.get(key)` / `d[key]` read on a Python dict: first (only) binding. -/
def lookupA {α : Type} : List (String × α) → String → Option α
  | [], _ => none
  | (k, v) :: rest, key => if k = key then some v else lookupA rest key

/-- `d[key] = val` on a Python dict: update in place, or append a fresh
key at the end (CPython insertion order). -/
def setA {α : Type} : List (String × α) → String → α → List (String × α)
  | [], key, val => [(key, val)]
  | (k, v) :: rest, key, val =>
    if k = key then (k, val) :: rest else (k, v) :: setA rest key val

/-! ## AlertAgent state and rate limiting -/

/-- Which branch of `_is_rate_limited` denied (distinguished in the code
by the two warning prints at alert_agent.py lines 75 and 80). -/
inductive DenyReason where
  | cooldown
  | rateLimit
deriving DecidableEq

/-- The mutable state of an `AlertAgent` (alert_agent.py lines 32–37):
the configured `rate_limit` and `cooldown`, the per-class emission
timestamp lists `alert_history` (a `defaultdict(list)`), and the per-class
last-emission times `alert_cooldowns`. -/
structure AgentState where
  rate_limit : ℕ
  cooldown : ℚ
  alert_history : List (String × List ℚ)
  alert_cooldowns : List (String × ℚ)
deriving DecidableEq

/-- The pruning comprehension of `_is_rate_limited` (lines 67–70): keep
timestamps with `now - t < 60`. -/
def recentFilter (now : ℚ) (ts : List ℚ) : List ℚ :=
  ts.filter (fun t => decide (now - t < 60))

/-- `AlertAgent._is_rate_limited` (alert_agent.py lines 54–83).  It first
prunes and writes back the class's history (a `defaultdict` read plus
assignment, so the entry is materialized even for a fresh class), then
checks the cooldown (`alert_cooldowns.get(alert_type, 0)`), then the
sliding-window count.  Returns the mutated state together with `none`
(admitted) or the denying branch. -/
def isRateLimited (s : AgentState) (alert_type : String) (now : ℚ) :
    AgentState × Option DenyReason :=
  let pruned := recentFilter now ((lookupA s.alert_history alert_type).getD [])
  let s' := { s with alert_history := setA s.alert_history alert_type pruned }
  let last := (lookupA s.alert_cooldowns alert_type).getD 0
  if now - last < s.cooldown then (s', some .cooldown)
  else if s.rate_limit ≤ pruned.length then (s', some .rateLimit)
  else (s', none)

/-- The housekeeping loop of `send_alert` (alert_agent.py lines 171–180):
every class's list is pruned to `now - t < 3600`, and classes whose pruned
list is empty are deleted.  Iterating the key snapshot once in dict order
and deleting in place is, observably, this map-then-filter. -/
def cleanupHistory (now : ℚ) (hist : List (String × List ℚ)) :
    List (String × List ℚ) :=
  (hist.map (fun e => (e.1, e.2.filter (fun t => decide (now - t < 3600))))).filter
    (fun e => !e.2.isEmpty)

/-- The dictionary returned by `send_alert`: `status` and `message`
always, `alert_type` only on the success path (alert_agent.py lines
157–161 and 194–199). -/
structure AlertResult where
  status : String
  message : String
  alert_type : Option String
deriving DecidableEq

/-- `AlertAgent.send_alert` (alert_agent.py lines 140–199), with the
message-composition call abstracted away (it does not touch the limiter
state).  On denial it returns status `"rate_limited"` (both denial
branches).  On admission it appends `now` to the class's history, sets the
class's cooldown, then runs the housekeeping loop — whose loop variable is
the *same* `alert_type` variable, so after the loop `alert_type` holds the
last key of the history snapshot, and that value is what lines 196–197
put into the returned message and `alert_type` field. -/
def send_alert (s : AgentState) (severity : String) (now : ℚ) :
    AgentState × AlertResult :=
  let checked := isRateLimited s severity now
  match checked.2 with
  | some _ =>
    (checked.1,
      { status := "rate_limited"
        message := "Alert rate limit reached for type: " ++ severity
        alert_type := none })
  | none =>
    let s1 := checked.1
    let hist2 := setA s1.alert_history severity
      (((lookupA s1.alert_history severity).getD []) ++ [now])
    let cooldowns2 := setA s1.alert_cooldowns severity now
    let finalType := ((hist2.map Prod.fst).getLast?).getD severity
    let hist3 := cleanupHistory now hist2
    ({ s1 with alert_history := hist3, alert_cooldowns := cooldowns2 },
      { status := "success"
        message := "Alert generated and sent (Type: " ++ finalType ++ ")"
        alert_type := some finalType })

/-! ## Fallback alert message (`generate_alert_message`) -/

/-- The fields of the `anomaly_data` dict that the fallback template reads
(alert_agent.py lines 129–137).  `featuresJson` stands for
`json.dumps(anomaly_data.get('features', {}), indent=2)`, a deterministic
function of the features mapping. -/
structure AnomalyData where
  severity : String
  score : ℚ
  timestamp : String
  featuresJson : String
deriving DecidableEq

/-- Left-pad a number below 10000 to four digits. -/
def pad4 (m : ℕ) : String :=
  if m < 10 then "000" ++ toString m
  else if m < 100 then "00" ++ toString m
  else if m < 1000 then "0" ++ toString m
  else toString m

/-- Python `f"{score:.4f}"`: fixed-point rendering with four decimal
places (rounding to the nearest 1/10000). -/
def format4 (q : ℚ) : String :=
  let n : ℤ := ⌊q * 10000 + 1 / 2⌋
  let sign := if n < 0 then "-" else ""
  let a := n.natAbs
  sign ++ toString (a / 10000) ++ "." ++ pad4 (a % 10000)

/-- The fallback template of `generate_alert_message` (alert_agent.py
lines 129–138), for data carrying all four fields (so the
`datetime.now()` default for a missing timestamp is not taken). -/
def fallbackMessage (d : AnomalyData) : String :=
  "SECURITY ALERT - " ++ d.severity.toUpper ++ " SEVERITY\n" ++
  "Time: " ++ d.timestamp ++ "\n" ++
  "Anomaly Score: " ++ format4 d.score ++ "\n" ++
  "Details: " ++ (d.featuresJson.take 500)

/-- Outcome of the message-composition collaborator in
`generate_alert_message`: no client configured (alert_agent.py line 51),
the API call raised (caught at line 125), or a successful completion. -/
inductive ClientResult where
  | noClient
  | failure
  | success (msg : String)
deriving DecidableEq

/-- `AlertAgent.generate_alert_message` (alert_agent.py lines 85–138):
a successful collaborator call returns its message; otherwise the
deterministic fallback template is returned. -/
def generate_alert_message (client : ClientResult) (d : AnomalyData) : String :=
  match client with
  | .success msg => msg
  | .noClient => fallbackMessage d
  | .failure => fallbackMessage d

/-! ## Helper lemmas -/

theorem lookupA_setA_self {α : Type} (l : List (String × α)) (k : String) (v : α) :
    lookupA (setA l k v) k = some v := by
  induction l with
  | nil => simp [setA, lookupA]
  | cons e rest ih =>
    obtain ⟨k', v'⟩ := e
    by_cases h : k' = k
    · simp [setA, lookupA, h]
    · simp [setA, lookupA, h, ih]

theorem lookupA_eq_none_of_not_mem {α : Type} (l : List (String × α)) (k : String)
    (h : k ∉ l.map Prod.fst) : lookupA l k = none := by
  induction l with
  | nil => rfl
  | cons e rest ih =>
    obtain ⟨k', v'⟩ := e
    simp only [List.map_cons, List.mem_cons] at h
    push_neg at h
    have hne : ¬k' = k := fun hkk => h.1 hkk.symm
    simp [lookupA, hne, ih h.2]

theorem recentFilter_idem (now : ℚ) (ts : List ℚ) :
    recentFilter now (recentFilter now ts) = recentFilter now ts := by
  unfold recentFilter
  induction ts with
  | nil => rfl
  | cons t rest ih =>
    by_cases h : now - t < 60 <;> simp [List.filter_cons, h, ih]

theorem isRateLimited_fst (s : AgentState) (c : String) (now : ℚ) :
    (isRateLimited s c now).1 =
      { s with alert_history := (setA s.alert_history c
          (recentFilter now ((lookupA s.alert_history c).getD []))) } := by
  simp only [isRateLimited]
  split_ifs <;> rfl

/-! ## Claims -/

/-- C1: for thresholds `severe < mild`, `detect_anomaly` classifies
`severity = high` iff `score < severe`, `medium` iff
`severe ≤ score < mild`, `low` iff `score ≥ mild` (a score equal to a
threshold falls in the less-severe band), and `is_anomaly` iff
`score < mild`. -/
theorem detect_severity_bands (severe mild score : ℚ) (h : severe < mild) :
    ((detectAnomalyWith severe mild score).severity = "high" ↔ score < severe) ∧
    ((detectAnomalyWith severe mild score).severity = "medium" ↔
      severe ≤ score ∧ score < mild) ∧
    ((detectAnomalyWith severe mild score).severity = "low" ↔ mild ≤ score) ∧
    ((detectAnomalyWith severe mild score).is_anomaly = true ↔ score < mild) := by
  have hsev : (detectAnomalyWith severe mild score).severity =
      if score < severe then "high" else if score < mild then "medium" else "low" := rfl
  have hanom : (detectAnomalyWith severe mild score).is_anomaly =
      decide (score < mild) := rfl
  rw [hsev, hanom]
  split_ifs with h1 h2
  · exact ⟨⟨fun _ => h1, fun _ => rfl⟩,
      iff_of_false (by decide) (fun hc => absurd h1 (not_lt.mpr hc.1)),
      iff_of_false (by decide) (fun hm => absurd (h1.trans h) (not_lt.mpr hm)),
      by simp⟩
  · exact ⟨iff_of_false (by decide) h1,
      iff_of_true rfl ⟨not_lt.mp h1, h2⟩,
      iff_of_false (by decide) (not_le.mpr h2),
      by simp [h2]⟩
  · exact ⟨iff_of_false (by decide) h1,
      iff_of_false (by decide) (fun hc => h2 hc.2),
      iff_of_true rfl (not_lt.mp h2),
      by simp [h2]⟩

/-- C1 witness: defaults `severe = -0.15`, `mild = -0.05`; score `-0.20`
gives `(high, anomalous)`, `-0.10` gives `medium`, `-0.05` gives
`(low, not anomalous)`. -/
theorem detect_severity_bands_witness :
    ((-0.15 : ℚ) < -0.05) ∧
    (detect_anomaly (-0.20)).severity = "high" ∧
    (detect_anomaly (-0.20)).is_anomaly = true ∧
    (detect_anomaly (-0.10)).severity = "medium" ∧
    (detect_anomaly (-0.05)).severity = "low" ∧
    (detect_anomaly (-0.05)).is_anomaly = false := by
  have h1 := detect_severity_bands (-0.15) (-0.05) (-0.20) (by norm_num)
  have h2 := detect_severity_bands (-0.15) (-0.05) (-0.10) (by norm_num)
  have h3 := detect_severity_bands (-0.15) (-0.05) (-0.05) (by norm_num)
  refine ⟨by norm_num, h1.1.mpr (by norm_num), h1.2.2.2.mpr (by norm_num),
    h2.2.1.mpr (by constructor <;> norm_num), h3.2.2.1.mpr (by norm_num), ?_⟩
  have hne : ¬(detectAnomalyWith (-0.15) (-0.05) (-0.05)).is_anomaly = true :=
    fun hb => absurd (h3.2.2.2.mp hb) (by norm_num)
  exact Bool.eq_false_iff.mpr hne

/-- C5: an admission check is an idempotent read — running
`_is_rate_limited` a second time on the state the first call left, with
the same `now` and no intervening emission, returns the same
admitted/denied answer with the same reason. -/
theorem admit_idempotent (s : AgentState) (c : String) (now : ℚ) :
    (isRateLimited (isRateLimited s c now).1 c now).2 =
      (isRateLimited s c now).2 := by
  rw [isRateLimited_fst]
  unfold isRateLimited
  simp only [lookupA_setA_self, Option.getD_some, recentFilter_idem]
  split_ifs <;> rfl

/-- C6: after the housekeeping step of `send_alert` runs at time `now`
(over a state whose timestamps were recorded at or before `now`), every
retained timestamp is within 3600 seconds of `now`, and no class maps to
an empty list. -/
theorem cleanup_bounded_memory (now : ℚ) (hist : List (String × List ℚ))
    (h : ∀ e ∈ hist, ∀ t ∈ e.2, t ≤ now) :
    ∀ e ∈ cleanupHistory now hist,
      e.2 ≠ [] ∧ ∀ t ∈ e.2, 0 ≤ now - t ∧ now - t < 3600 := by
  intro e he
  unfold cleanupHistory at he
  rcases List.mem_filter.mp he with ⟨hmem, hpred⟩
  rcases List.mem_map.mp hmem with ⟨⟨k, ts⟩, hk, rfl⟩
  refine ⟨by simpa using hpred, ?_⟩
  intro t ht
  rcases List.mem_filter.mp ht with ⟨hts, hlt⟩
  have h1 : t ≤ now := h (k, ts) hk t hts
  have h2 : now - t < 3600 := by simpa using hlt
  exact ⟨by linarith, h2⟩

/-- C6 witness: a class whose list prunes to empty is evicted; a stale
timestamp is dropped; retained ones are within an hour of `now`. -/
theorem cleanup_bounded_memory_witness :
    cleanupHistory 4000 [("high", [(0 : ℚ), 3000]), ("low", [100])] = [("high", [3000])] ∧
    ∀ e ∈ cleanupHistory 4000 [("high", [(0 : ℚ), 3000]), ("low", [100])],
      e.2 ≠ [] ∧ ∀ t ∈ e.2, 0 ≤ 4000 - t ∧ 4000 - t < 3600 := by
  refine ⟨by norm_num [cleanupHistory, List.filter], ?_⟩
  exact cleanup_bounded_memory 4000 [("high", [0, 3000]), ("low", [100])] (by norm_num)

/-- C7: when the message-composition collaborator is unavailable or
fails, `generate_alert_message` returns the deterministic fallback
template built purely from the severity, 4-decimal-formatted score,
timestamp, and 500-character-truncated feature dump; any two failing
collaborator outcomes yield byte-identical messages. -/
theorem fallback_deterministic (c₁ c₂ : ClientResult) (d : AnomalyData)
    (h₁ : ∀ m, c₁ ≠ ClientResult.success m)
    (h₂ : ∀ m, c₂ ≠ ClientResult.success m) :
    generate_alert_message c₁ d = fallbackMessage d ∧
    generate_alert_message c₁ d = generate_alert_message c₂ d ∧
    generate_alert_message c₁ d =
      "SECURITY ALERT - " ++ d.severity.toUpper ++ " SEVERITY\n" ++
      "Time: " ++ d.timestamp ++ "\n" ++
      "Anomaly Score: " ++ format4 d.score ++ "\n" ++
      "Details: " ++ (d.featuresJson.take 500) := by
  cases c₁ with
  | success m => exact absurd rfl (h₁ m)
  | noClient =>
    cases c₂ with
    | success m => exact absurd rfl (h₂ m)
    | noClient => exact ⟨rfl, rfl, rfl⟩
    | failure => exact ⟨rfl, rfl, rfl⟩
  | failure =>
    cases c₂ with
    | success m => exact absurd rfl (h₂ m)
    | noClient => exact ⟨rfl, rfl, rfl⟩
    | failure => exact ⟨rfl, rfl, rfl⟩

/-- C7 witness: a concrete anomaly record; the no-client and
raised-exception paths agree with each other and with the fallback
template, whose score is rendered to four decimal places. -/
theorem fallback_deterministic_witness :
    format4 (-0.2) = "-0.2000" ∧
    generate_alert_message ClientResult.noClient
        { severity := "high", score := -0.2, timestamp := "2025-01-01T00:00:00",
          featuresJson := "\x7b\x7d" } =
      fallbackMessage
        { severity := "high", score := -0.2, timestamp := "2025-01-01T00:00:00",
          featuresJson := "\x7b\x7d" } ∧
    generate_alert_message ClientResult.noClient
        { severity := "high", score := -0.2, timestamp := "2025-01-01T00:00:00",
          featuresJson := "\x7b\x7d" } =
      generate_alert_message ClientResult.failure
        { severity := "high", score := -0.2, timestamp := "2025-01-01T00:00:00",
          featuresJson := "\x7b\x7d" } := by
  have h := fallback_deterministic ClientResult.noClient ClientResult.failure
    { severity := "high", score := -0.2, timestamp := "2025-01-01T00:00:00",
      featuresJson := "\x7b\x7d" }
    (by intro m hm; cases hm) (by intro m hm; cases hm)
  refine ⟨?_, h.1, h.2.1⟩
  norm_num [format4, pad4]
  rfl

/-- A fresh limiter configured as in the C3 scenario: `rate_limit = 2`,
`cooldown = 0`. -/
def limiterRL2 : AgentState :=
  { rate_limit := 2, cooldown := 0, alert_history := [], alert_cooldowns := [] }

/-- A limiter at the defaults (`rate_limit = 5`, `cooldown = 300`) whose
class `high` last emitted at t = 100. -/
def limiterCd : AgentState :=
  { rate_limit := 5, cooldown := 300, alert_history := [("high", [100])], alert_cooldowns := [("high", 100)] }

/-- A fresh limiter at the defaults (`rate_limit = 5`, `cooldown = 300`). -/
def limiterFresh : AgentState :=
  { rate_limit := 5, cooldown := 300, alert_history := [], alert_cooldowns := [] }

/-- A defaults-configured limiter whose class `high` emitted at t = 0;
at t = 70 the window count is back to zero but the cooldown is active. -/
def limiterCdOnly : AgentState :=
  { rate_limit := 5, cooldown := 300, alert_history := [("high", [0])], alert_cooldowns := [("high", 0)] }

/-- A no-cooldown limiter with emission history for the two classes
`high` (inserted first) and `low` (inserted last). -/
def limiterTwo : AgentState :=
  { rate_limit := 5, cooldown := 0, alert_history := [("high", [50]), ("low", [55])], alert_cooldowns := [("high", 50), ("low", 55)] }

/-- C3: once `rate_limit` emissions for a class lie within the 60-second
window of `now` (entries older than the window having been dropped), the
next admission check for that class is denied and `send_alert` reports
`"rate_limited"`; whenever the cooldown check passes, the denying branch
is precisely the rate-limit one. -/
theorem rate_limit_denies (s : AgentState) (c : String) (now : ℚ)
    (h : s.rate_limit ≤
      (recentFilter now ((lookupA s.alert_history c).getD [])).length) :
    (∃ r, (isRateLimited s c now).2 = some r) ∧
    (send_alert s c now).2.status = "rate_limited" ∧
    (s.cooldown ≤ now - (lookupA s.alert_cooldowns c).getD 0 →
      (isRateLimited s c now).2 = some DenyReason.rateLimit) := by
  have hden : ∃ r, (isRateLimited s c now).2 = some r := by
    simp only [isRateLimited]
    by_cases h1 : now - (lookupA s.alert_cooldowns c).getD 0 < s.cooldown
    · rw [if_pos h1]
      exact ⟨DenyReason.cooldown, rfl⟩
    · rw [if_neg h1, if_pos h]
      exact ⟨DenyReason.rateLimit, rfl⟩
  obtain ⟨r, hr⟩ := hden
  refine ⟨⟨r, hr⟩, ?_, ?_⟩
  · simp only [send_alert, hr]
  · intro hcd
    simp only [isRateLimited]
    rw [if_neg (not_lt.mpr hcd), if_pos h]

/-- C3 witness: the end-to-end scenario — `rate_limit = 2`,
`window = 60 s`, `cooldown = 0`; `send_alert` cycles for class `high` at
t = 0, 10, 20 give admitted, admitted, rate_limited. -/
theorem rate_limit_denies_witness :
    (send_alert limiterRL2 "high" 0).2.status = "success" ∧
    (send_alert (send_alert limiterRL2 "high" 0).1 "high" 10).2.status =
      "success" ∧
    (send_alert (send_alert (send_alert limiterRL2 "high" 0).1 "high" 10).1
      "high" 20).2.status = "rate_limited" := by
  have hstate : (send_alert (send_alert limiterRL2 "high" 0).1 "high" 10).1 =
      { rate_limit := 2, cooldown := 0, alert_history := [("high", [0, 10])], alert_cooldowns := [("high", 10)] } := by
    norm_num [limiterRL2, send_alert, isRateLimited, recentFilter, lookupA,
      setA, cleanupHistory, List.filter]
  refine ⟨?_, ?_, ?_⟩
  · norm_num [limiterRL2, send_alert, isRateLimited, recentFilter, lookupA,
      setA, cleanupHistory, List.filter]
  · norm_num [limiterRL2, send_alert, isRateLimited, recentFilter, lookupA,
      setA, cleanupHistory, List.filter]
  · rw [hstate]
    exact (rate_limit_denies _ "high" 20
      (by norm_num [recentFilter, lookupA, List.filter])).2.1

/-- C4: whenever `now - last_emission_time < cooldown` the admission
check denies with the cooldown branch (the cooldown check runs before the
window count is even consulted, so this holds at any window count); in
particular, when `cooldown > 0`, immediately after a successful
`send_alert` the next check for the same class at the same `now` denies
with the cooldown branch. -/
theorem cooldown_denies (s : AgentState) (c : String) (now : ℚ)
    (h0 : 0 < s.cooldown) :
    (now - (lookupA s.alert_cooldowns c).getD 0 < s.cooldown →
      (isRateLimited s c now).2 = some DenyReason.cooldown) ∧
    ((send_alert s c now).2.status = "success" →
      (isRateLimited (send_alert s c now).1 c now).2 =
        some DenyReason.cooldown) := by
  constructor
  · intro h1
    simp only [isRateLimited]
    rw [if_pos h1]
  · intro hs
    rcases hd : (isRateLimited s c now).2 with _ | r
    · simp only [send_alert, hd, isRateLimited_fst]
      simp only [isRateLimited, lookupA_setA_self, Option.getD_some]
      rw [if_pos (show now - now < s.cooldown by simpa using h0)]
    · simp only [send_alert, hd] at hs
      exact absurd hs (by decide)

/-- C4 witness: with `cooldown = 300`, a class whose last emission was at
t = 100 is denied at t = 200 with the window count below `rate_limit`;
and after a fresh class's first successful `send_alert` at t = 400, an
immediate re-check is denied — both via the cooldown branch. -/
theorem cooldown_denies_witness :
    (isRateLimited limiterCd "high" 200).2 = some DenyReason.cooldown ∧
    (send_alert limiterFresh "high" 400).2.status = "success" ∧
    (isRateLimited (send_alert limiterFresh "high" 400).1 "high" 400).2 =
      some DenyReason.cooldown := by
  have hs : (send_alert limiterFresh "high" 400).2.status = "success" := by
    norm_num [limiterFresh, send_alert, isRateLimited, recentFilter, lookupA,
      setA, cleanupHistory, List.filter]
  refine ⟨?_, hs, ?_⟩
  · exact (cooldown_denies limiterCd "high" 200
      (by norm_num [limiterCd])).1 (by norm_num [limiterCd, lookupA])
  · exact (cooldown_denies limiterFresh "high" 400
      (by norm_num [limiterFresh])).2 hs

/-- C8 counterexample: a denial caused by the cooldown branch (window
count zero after pruning) still yields status `"rate_limited"`; the code
never produces a `"cooldown_blocked"` status. -/
theorem denied_status_counterexample :
    (isRateLimited limiterCdOnly "high" 70).2 = some DenyReason.cooldown ∧
    (recentFilter 70 ((lookupA limiterCdOnly.alert_history "high").getD [])).length = 0 ∧
    (send_alert limiterCdOnly "high" 70).2.status = "rate_limited" ∧
    (send_alert limiterCdOnly "high" 70).2.status ≠ "cooldown_blocked" := by
  refine ⟨?_, ?_, ?_, ?_⟩ <;>
    norm_num [limiterCdOnly, send_alert, isRateLimited, recentFilter, lookupA,
      setA, cleanupHistory, List.filter]
  decide

/-- C8 (amended): any denied dispatch — whichever branch denied —
returns status `"rate_limited"`, and no emission occurs: the cooldown
map is unchanged and the class's history is only pruned (every retained
timestamp was already present; nothing is appended). -/
theorem denied_status_uniform (s : AgentState) (c : String) (now : ℚ)
    (r : DenyReason) (h : (isRateLimited s c now).2 = some r) :
    (send_alert s c now).2.status = "rate_limited" ∧
    (send_alert s c now).1.alert_cooldowns = s.alert_cooldowns ∧
    (send_alert s c now).1.alert_history =
      setA s.alert_history c
        (recentFilter now ((lookupA s.alert_history c).getD [])) ∧
    ∀ t ∈ recentFilter now ((lookupA s.alert_history c).getD []),
      t ∈ (lookupA s.alert_history c).getD [] := by
  refine ⟨?_, ?_, ?_, ?_⟩
  · simp only [send_alert, h]
  · simp only [send_alert, h, isRateLimited_fst]
  · simp only [send_alert, h, isRateLimited_fst]
  · intro t ht
    exact (List.mem_filter.mp ht).1

/-- C8 amended-claim witness: a concrete cooldown-blocked dispatch leaves
the cooldown map untouched and only prunes the class's history. -/
theorem denied_status_uniform_witness :
    (send_alert limiterCdOnly "high" 70).2.status = "rate_limited" ∧
    (send_alert limiterCdOnly "high" 70).1.alert_cooldowns = [("high", 0)] := by
  have h := denied_status_uniform limiterCdOnly "high" 70 DenyReason.cooldown
    (by norm_num [limiterCdOnly, isRateLimited, recentFilter, lookupA, setA,
      List.filter])
  exact ⟨h.1, h.2.1⟩

/-- C9 (code slip): dispatching class `high` — admitted, its history and
cooldown duly updated — returns a record whose `alert_type` field and
message name `low`, the *last* key of the history mapping, because the
housekeeping loop at alert_agent.py line 172 reuses the `alert_type`
variable; the success status string is `"success"`, not `"emitted"`. -/
theorem send_alert_mislabels_class :
    (send_alert limiterTwo "high" 60).2.status = "success" ∧
    (send_alert limiterTwo "high" 60).2.alert_type = some "low" ∧
    (send_alert limiterTwo "high" 60).2.message =
      "Alert generated and sent (Type: low)" ∧
    lookupA (send_alert limiterTwo "high" 60).1.alert_history "high" =
      some [50, 60] ∧
    lookupA (send_alert limiterTwo "high" 60).1.alert_cooldowns "high" =
      some 60 := by
  refine ⟨?_, ?_, ?_, ?_, ?_⟩ <;>
    norm_num [limiterTwo, send_alert, isRateLimited, recentFilter, lookupA,
      setA, cleanupHistory, List.filter]
  rfl

/-- C10: a class with no prior emission has its missing last-emission
time read as 0 (`alert_cooldowns.get(alert_type, 0)`), so — window count
zero, positive `rate_limit` — its first-ever request at time `now` is
admitted iff `now ≥ cooldown`, and for every `now < cooldown` it is
denied by the cooldown branch despite never having emitted. -/
theorem first_request_cooldown_gate (s : AgentState) (c : String) (now : ℚ)
    (hh : lookupA s.alert_history c = none)
    (hc : lookupA s.alert_cooldowns c = none)
    (hr : 0 < s.rate_limit) :
    ((isRateLimited s c now).2 = none ↔ s.cooldown ≤ now) ∧
    (now < s.cooldown →
      (isRateLimited s c now).2 = some DenyReason.cooldown) := by
  have hlen : recentFilter now (([] : List ℚ)) = [] := rfl
  simp only [isRateLimited, hh, hc, Option.getD_none, hlen, List.length_nil,
    sub_zero]
  constructor
  · by_cases h1 : now < s.cooldown
    · rw [if_pos h1]
      exact iff_of_false (by simp) (not_le.mpr h1)
    · rw [if_neg h1, if_neg (by omega)]
      exact iff_of_true rfl (not_lt.mp h1)
  · intro hlt
    rw [if_pos hlt]

/-- C10 witness: defaults `rate_limit = 5`, `cooldown = 300`, a fresh
class: at t = 200 the first-ever request is denied in-cooldown; at
t = 300 it is admitted. -/
theorem first_request_cooldown_gate_witness :
    (isRateLimited limiterFresh "high" 200).2 = some DenyReason.cooldown ∧
    (isRateLimited limiterFresh "high" 300).2 = none := by
  constructor
  · exact (first_request_cooldown_gate limiterFresh "high" 200 rfl rfl
      (by norm_num [limiterFresh])).2 (by norm_num [limiterFresh])
  · exact (first_request_cooldown_gate limiterFresh "high" 300 rfl rfl
      (by norm_num [limiterFresh])).1.mpr (by norm_num [limiterFresh])

/-! ## Vectorizer claims -/

theorem processItems_warnings (schema : List String)
    (data : List (String × PyVal)) (m : String → ℚ) :
    (processItems schema data m).2 = data.filterMap (fun kv =>
      if kv.1 ∈ schema then
        (if pyFloatCoerce kv.2 = none then some (FVWarning.coercion kv.1)
         else none)
      else some (FVWarning.unknownKey kv.1)) := by
  induction data generalizing m with
  | nil => rfl
  | cons kv rest ih =>
    obtain ⟨k, v⟩ := kv
    by_cases hk : k ∈ schema
    · rcases hv : pyFloatCoerce v with _ | q <;>
        simp [processItems, hk, hv, List.filterMap_cons, ih]
    · simp [processItems, hk, List.filterMap_cons, ih]

theorem processItems_map (schema : List String) (data : List (String × PyVal))
    (m : String → ℚ) (h : (data.map Prod.fst).Nodup) (f : String)
    (hf : f ∈ schema) :
    (processItems schema data m).1 f =
      ((lookupA data f).map (fun v => (pyFloatCoerce v).getD 0)).getD (m f) := by
  induction data generalizing m with
  | nil => rfl
  | cons kv rest ih =>
    obtain ⟨k, v⟩ := kv
    simp only [List.map_cons, List.nodup_cons] at h
    obtain ⟨hk_rest, hrest⟩ := h
    by_cases hkf : k = f
    · subst hkf
      have hlook : lookupA rest k = none :=
        lookupA_eq_none_of_not_mem rest k hk_rest
      rcases hv : pyFloatCoerce v with _ | q
      · simp only [processItems, if_pos hf, hv]
        rw [ih _ hrest, hlook]
        simp [lookupA, hv]
      · simp only [processItems, if_pos hf, hv]
        rw [ih _ hrest, hlook]
        simp [lookupA, hv]
    · have hcons : lookupA ((k, v) :: rest) f = lookupA rest f := by
        simp [lookupA, hkf]
      rw [hcons]
      have hfk : ¬f = k := fun hh => hkf hh.symm
      by_cases hks : k ∈ schema
      · rcases hv : pyFloatCoerce v with _ | q
        · simp only [processItems, if_pos hks, hv]
          rw [ih _ hrest]
          cases hl : lookupA rest f <;> simp [hl, hfk]
        · simp only [processItems, if_pos hks, hv]
          rw [ih _ hrest]
          cases hl : lookupA rest f <;> simp [hl, hfk]
      · simp only [processItems, if_neg hks]
        rw [ih _ hrest]

/-- The schema of the spec's end-to-end vectorizer scenario. -/
def exampleSchema : List String := ["a", "b", "c"]

/-- The input record of that scenario: `a` is the numeric string "5",
`b` is a non-numeric string, `d` is an integer key outside the schema. -/
def exampleRecord : List (String × PyVal) :=
  [("a", PyVal.pyStr (some 5)), ("b", PyVal.pyStr none), ("d", PyVal.pyInt 9)]

/-- C2: for a record with distinct keys (a Python dict), the vectorizer
returns a vector of length exactly `len(schema)`, in schema order, each
slot the float coercion of the record's value for that feature — `0.0`
for a missing key or a failed coercion; unknown keys never extend the
vector; warnings are exactly one coercion warning per schema key whose
value fails `float()` and one ignored-key warning per key outside the
schema, and the call is total (never raises). -/
theorem preprocess_vectorizer_contract (schema : List String)
    (data : List (String × PyVal)) (h : (data.map Prod.fst).Nodup) :
    (preprocess_data schema data).1.length = schema.length ∧
    (preprocess_data schema data).1 = schema.map (fun f =>
      ((lookupA data f).map (fun v => (pyFloatCoerce v).getD 0)).getD 0) ∧
    (preprocess_data schema data).2 = data.filterMap (fun kv =>
      if kv.1 ∈ schema then
        (if pyFloatCoerce kv.2 = none then some (FVWarning.coercion kv.1)
         else none)
      else some (FVWarning.unknownKey kv.1)) := by
  refine ⟨?_, ?_, ?_⟩
  · simp [preprocess_data]
  · simp only [preprocess_data]
    apply List.map_congr_left
    intro f hf
    exact processItems_map schema data _ h f hf
  · exact processItems_warnings schema data _

/-- C2 witness: schema `[a, b, c]`, input `{a: "5", b: "bad", d: 9}` —
vector `[5.0, 0.0, 0.0]`, one coercion warning for `b`, one ignored-key
warning for `d`. -/
theorem preprocess_vectorizer_contract_witness :
    (preprocess_data exampleSchema exampleRecord).1 = [5, 0, 0] ∧
    (preprocess_data exampleSchema exampleRecord).1.length = 3 ∧
    (preprocess_data exampleSchema exampleRecord).2 =
      [FVWarning.coercion "b", FVWarning.unknownKey "d"] := by
  have h := preprocess_vectorizer_contract exampleSchema exampleRecord
    (by decide)
  refine ⟨h.2.1.trans (by decide), ?_, h.2.2.trans (by decide)⟩
  rw [h.1]
  rfl

end NetworkAnomaly
